/-
Verification development for a Django blog application.

The data layer (`apps/blog/models.py`) declares four entities — Post,
Category, Comment, Rating — with uniqueness constraints and per-relation
deletion policies; the account layer (`apps/accounts/forms.py`) validates
email uniqueness and profile updates.  We embed the declared schema and the
operations acting on it as executable Lean definitions over an explicit
store, and prove the stated data-layer properties.
-/
import Mathlib

namespace Blog

/-- Error taxonomy of the specification (§7): validation failures,
duplicate-vote conflicts, protected-delete rejections. -/
inductive DBError where
  | validationError
  | conflictError
  | referentialError
deriving DecidableEq, Repr

/-- Post / Comment status choices (`STATUS_OPTIONS` in models.py). -/
inductive Status where
  | published
  | draft
deriving DecidableEq, Repr

/-- The fields of `django.contrib.auth.models.User` the application uses. -/
structure User where
  id : Nat
  username : String
  email : String
  first_name : String
  last_name : String
deriving DecidableEq, Repr

/-- `Category(MPTTModel)` (models.py 96–134): title, slug, description and
an optional parent (`TreeForeignKey('self', on_delete=CASCADE)`). -/
structure Category where
  id : Nat
  title : String
  slug : String
  description : String
  parentId : Option Nat
deriving DecidableEq, Repr

/-- `Post` (models.py 24–93).  `create` is the `auto_now_add` timestamp,
`fixed` the pin flag; `categoryId` the PROTECT-ed category reference,
`authorId` the SET_DEFAULT(1) author, `updaterId` the SET_NULL updater. -/
structure Post where
  id : Nat
  title : String
  slug : String
  description : String
  categoryId : Nat
  text : String
  status : Status
  create : Nat
  authorId : Nat
  updaterId : Option Nat
  fixed : Bool
deriving DecidableEq, Repr

/-- `Comment(MPTTModel)` (models.py 137–178): references its Post (CASCADE),
its author (CASCADE) and an optional parent comment (CASCADE). -/
structure Comment where
  id : Nat
  postId : Nat
  authorId : Nat
  content : String
  time_create : Nat
  status : Status
  parentId : Option Nat
deriving DecidableEq, Repr

/-- `Rating` (models.py 181–203): post reference (CASCADE), optional user
reference (CASCADE), value with choices (1, -1), creation time, and the
originating IP address; `Meta.unique_together = ('post', 'ip_address')`. -/
structure Rating where
  postId : Nat
  userId : Option Nat
  value : Int
  time_create : Nat
  ip_address : String
deriving DecidableEq, Repr

/-- The relational store backing the models, plus a clock supplying
`auto_now_add` timestamps and fresh primary keys. -/
structure Store where
  users : List User
  categories : List Category
  posts : List Post
  comments : List Comment
  ratings : List Rating
  clock : Nat
deriving DecidableEq, Repr

/-- The ratings related to a post: `self.ratings.all()` for the
`related_name='ratings'` reverse accessor on `Rating.post`. -/
def ratingsOf (db : Store) (pid : Nat) : List Rating :=
  db.ratings.filter (fun r => decide (r.postId = pid))

/-- `Post.get_sum_rating` (models.py 92–93):
`sum([rating.value for rating in self.ratings.all()])` — Python's `sum`
folds `+` from the left starting at 0. -/
def get_sum_rating (db : Store) (pid : Nat) : Int :=
  ((ratingsOf db pid).map (fun r => r.value)).foldl (fun a b => a + b) 0

theorem get_sum_rating_eq_sum (db : Store) (pid : Nat) :
    get_sum_rating db pid = ((ratingsOf db pid).map (fun r => r.value)).sum := by
  simp [get_sum_rating, List.sum_eq_foldl]

/-- Modelled from the spec: the view invoking vote creation is not under
src/.  `cast_vote(post, address, value, user?)` validates the value against
the declared choices `(1, -1)` of `Rating.value` (models.py 189–190) —
field validation runs before the uniqueness check, as in `full_clean` —
then rejects a duplicate of the declared
`unique_together = ('post', 'ip_address')` pair (models.py 195–196) with a
ConflictError, and otherwise inserts the new Rating row. -/
def cast_vote (db : Store) (pid : Nat) (addr : String) (value : Int)
    (userId : Option Nat) : Except DBError Store :=
  if value = 1 ∨ value = -1 then
    if db.ratings.any (fun r => decide (r.postId = pid ∧ r.ip_address = addr)) then
      Except.error DBError.conflictError
    else
      Except.ok { db with
        ratings := { postId := pid, userId := userId, value := value,
                     time_create := db.clock, ip_address := addr } :: db.ratings,
        clock := db.clock + 1 }
  else Except.error DBError.validationError

/-- `score_of` of the spec delegates to `Post.get_sum_rating`. -/
def score_of (db : Store) (pid : Nat) : Int :=
  get_sum_rating db pid

/-- A concrete store used to instantiate universally quantified theorems. -/
def demoStore : Store :=
  { users := [{ id := 1, username := "admin", email := "a@x.com",
                first_name := "A", last_name := "B" }],
    categories := [{ id := 1, title := "Tech", slug := "tech",
                     description := "d", parentId := none }],
    posts := [{ id := 1, title := "P", slug := "p", description := "d",
                categoryId := 1, text := "t", status := Status.published,
                create := 0, authorId := 1, updaterId := none, fixed := false }],
    comments := [],
    ratings := [],
    clock := 10 }

/-- C1: a successful vote followed by a second vote from the same address:
the second call hits the `unique_together` pair and fails with
ConflictError, exactly one Rating for the pair is stored, and the score
reflects only the first vote's value. -/
theorem cast_vote_pair_unique (db db1 : Store) (pid : Nat) (addr : String)
    (v1 v2 : Int) (u1 u2 : Option Nat)
    (hv2 : v2 = 1 ∨ v2 = -1)
    (h1 : cast_vote db pid addr v1 u1 = Except.ok db1) :
    cast_vote db1 pid addr v2 u2 = Except.error DBError.conflictError ∧
    (db1.ratings.filter
      (fun r => decide (r.postId = pid ∧ r.ip_address = addr))).length = 1 ∧
    score_of db1 pid = get_sum_rating db pid + v1 := by
  unfold cast_vote at h1
  split at h1
  · split at h1
    · exact absurd h1 (by simp)
    · rename_i hval hdup
      have hdb1 : db1 = { db with
          ratings := { postId := pid, userId := u1, value := v1,
                       time_create := db.clock, ip_address := addr } :: db.ratings,
          clock := db.clock + 1 } := by
        cases h1; rfl
      have hnone : ∀ r ∈ db.ratings, ¬(r.postId = pid ∧ r.ip_address = addr) := by
        intro r hr hcontra
        exact hdup (by
          rw [List.any_eq_true]
          exact ⟨r, hr, by simpa using hcontra⟩)
      refine ⟨?_, ?_, ?_⟩
      · unfold cast_vote
        rw [if_pos hv2, if_pos]
        rw [hdb1]
        rw [List.any_eq_true]
        exact ⟨_, List.mem_cons_self _ _, by simp⟩
      · rw [hdb1]
        simp only [List.filter_cons]
        rw [if_pos (by simp)]
        have hfil : db.ratings.filter
            (fun r => decide (r.postId = pid ∧ r.ip_address = addr)) = [] := by
          rw [List.filter_eq_nil_iff]
          intro r hr
          simpa using hnone r hr
        rw [hfil, List.length_cons, List.length_nil]
      · rw [hdb1]
        simp only [score_of, get_sum_rating_eq_sum, ratingsOf]
        simp [List.filter_cons, add_comm]
  · exact absurd h1 (by simp)

/-- The store after casting the first vote on `demoStore`. -/
def demoStoreVoted : Store :=
  { demoStore with
    ratings := [{ postId := 1, userId := none, value := 1,
                  time_create := 10, ip_address := "1.2.3.4" }],
    clock := 11 }

/-- Witness for `cast_vote_pair_unique` at a concrete store and votes. -/
theorem cast_vote_pair_unique_witness :
    cast_vote demoStoreVoted 1 "1.2.3.4" (-1) none =
      Except.error DBError.conflictError ∧
    (demoStoreVoted.ratings.filter
      (fun r => decide (r.postId = 1 ∧ r.ip_address = "1.2.3.4"))).length = 1 ∧
    score_of demoStoreVoted 1 = get_sum_rating demoStore 1 + 1 :=
  cast_vote_pair_unique demoStore demoStoreVoted 1 "1.2.3.4" 1 (-1) none none
    (Or.inr rfl) rfl

/-- C7: a vote whose value is neither +1 nor -1 fails the choices
validation of `Rating.value` with a ValidationError; no store is produced,
so no Rating is stored. -/
theorem cast_vote_value_validated (db : Store) (pid : Nat) (addr : String)
    (v : Int) (u : Option Nat) (hv : v ≠ 1 ∧ v ≠ -1) :
    cast_vote db pid addr v u = Except.error DBError.validationError ∧
    ∀ db2 : Store, cast_vote db pid addr v u ≠ Except.ok db2 := by
  have hcond : ¬(v = 1 ∨ v = -1) := by
    rintro (h | h)
    · exact hv.1 h
    · exact hv.2 h
  constructor
  · unfold cast_vote
    rw [if_neg hcond]
  · intro db2 hcontra
    unfold cast_vote at hcontra
    rw [if_neg hcond] at hcontra
    exact absurd hcontra (by simp)

/-- Witness for `cast_vote_value_validated` with value 5. -/
theorem cast_vote_value_validated_witness :
    cast_vote demoStore 1 "1.2.3.4" 5 none = Except.error DBError.validationError ∧
    ∀ db2 : Store, cast_vote demoStore 1 "1.2.3.4" 5 none ≠ Except.ok db2 :=
  cast_vote_value_validated demoStore 1 "1.2.3.4" 5 none (by decide)

/-- C4: `score_of` equals the arithmetic sum of the values of all Ratings
stored for the post, and is 0 when the post has none. -/
theorem score_of_eq_sum (db : Store) (pid : Nat) :
    score_of db pid =
      ((db.ratings.filter (fun r => decide (r.postId = pid))).map
        (fun r => r.value)).sum ∧
    (ratingsOf db pid = [] → score_of db pid = 0) := by
  constructor
  · exact get_sum_rating_eq_sum db pid
  · intro hempty
    rw [score_of, get_sum_rating_eq_sum, hempty]
    rfl

/-- Witness for `score_of_eq_sum` on a store with no ratings. -/
theorem score_of_eq_sum_witness :
    score_of demoStore 1 =
      ((demoStore.ratings.filter (fun r => decide (r.postId = 1))).map
        (fun r => r.value)).sum ∧
    (ratingsOf demoStore 1 = [] → score_of demoStore 1 = 0) :=
  score_of_eq_sum demoStore 1

/-- One closure step when collecting a category subtree: add the ids of
categories whose parent is already collected
(`Category.parent` is `TreeForeignKey('self', on_delete=CASCADE)`,
models.py 106–108). -/
def categoryDescendantsStep (cats : List Category) (ids : List Nat) : List Nat :=
  ids ++ ((cats.filter (fun c =>
    match c.parentId with
    | some p => decide (p ∈ ids ∧ ¬c.id ∈ ids)
    | none => false)).map (fun c => c.id))

/-- Iterate the closure step `fuel` times to collect a category and its
descendants. -/
def categoryDescendants (cats : List Category) : Nat → List Nat → List Nat
  | 0, ids => ids
  | fuel + 1, ids => categoryDescendants cats fuel (categoryDescendantsStep cats ids)

/-- Deleting a Category: the delete collector gathers the category and its
descendants (parent CASCADE); `Post.category` is
`on_delete=models.PROTECT` (models.py 37–38), so if any Post references a
collected category the whole deletion is rejected before any row is
touched; otherwise the collected categories are removed. -/
def delete_category (db : Store) (cid : Nat) : Except DBError Store :=
  let doomed := categoryDescendants db.categories db.categories.length [cid]
  if db.posts.any (fun p => decide (p.categoryId ∈ doomed)) then
    Except.error DBError.referentialError
  else
    Except.ok { db with
      categories := db.categories.filter (fun c => decide (¬c.id ∈ doomed)) }

theorem subset_categoryDescendantsStep (cats : List Category) (ids : List Nat) :
    ∀ x ∈ ids, x ∈ categoryDescendantsStep cats ids := by
  intro x hx
  exact List.mem_append_left _ hx

theorem subset_categoryDescendants (cats : List Category) :
    ∀ (fuel : Nat) (ids : List Nat), ∀ x ∈ ids, x ∈ categoryDescendants cats fuel ids := by
  intro fuel
  induction fuel with
  | zero => intro ids x hx; exact hx
  | succ n ih =>
      intro ids x hx
      exact ih (categoryDescendantsStep cats ids) x
        (subset_categoryDescendantsStep cats ids x hx)

/-- C5: deleting a Category referenced by at least one Post fails with a
ReferentialError, and no updated store is produced — the posts and the
categories of the original store are untouched. -/
theorem delete_category_protected (db : Store) (cid : Nat)
    (href : ∃ p ∈ db.posts, p.categoryId = cid) :
    delete_category db cid = Except.error DBError.referentialError ∧
    ∀ db2 : Store, delete_category db cid ≠ Except.ok db2 := by
  obtain ⟨p, hp, hpcat⟩ := href
  have hmem : cid ∈ categoryDescendants db.categories db.categories.length [cid] :=
    subset_categoryDescendants db.categories db.categories.length [cid] cid
      (List.mem_singleton.mpr rfl)
  have hany : db.posts.any (fun p => decide (p.categoryId ∈
      categoryDescendants db.categories db.categories.length [cid])) = true := by
    rw [List.any_eq_true]
    refine ⟨p, hp, ?_⟩
    rw [decide_eq_true_iff]
    rw [hpcat]
    exact hmem
  constructor
  · unfold delete_category
    simp only [hany, if_true]
  · intro db2 hcontra
    unfold delete_category at hcontra
    simp only [hany, if_true] at hcontra
    exact absurd hcontra (by simp)

/-- Witness for `delete_category_protected`: `demoStore`'s post references
category 1. -/
theorem delete_category_protected_witness :
    delete_category demoStore 1 = Except.error DBError.referentialError ∧
    ∀ db2 : Store, delete_category demoStore 1 ≠ Except.ok db2 :=
  delete_category_protected demoStore 1 (by decide)

/-- Cascade deletion over the comment forest: repeatedly drop every comment
that is directly doomed (`dead`) or whose parent comment is no longer
alive (`Comment.parent` is CASCADE, models.py 160–161). -/
def pruneComments (dead : Comment → Bool) : Nat → List Comment → List Comment
  | 0, alive => alive
  | fuel + 1, alive =>
      pruneComments dead fuel (alive.filter (fun c =>
        !dead c && (match c.parentId with
                    | some p => decide (p ∈ alive.map (fun x => x.id))
                    | none => true)))

theorem pruneComments_subset (dead : Comment → Bool) :
    ∀ (fuel : Nat) (alive : List Comment), ∀ c ∈ pruneComments dead fuel alive, c ∈ alive := by
  intro fuel
  induction fuel with
  | zero => intro alive c hc; exact hc
  | succ n ih =>
      intro alive c hc
      have h2 := ih _ c hc
      exact List.mem_of_mem_filter h2

theorem pruneComments_not_dead (dead : Comment → Bool) (fuel : Nat)
    (alive : List Comment) :
    ∀ c ∈ pruneComments dead (fuel + 1) alive, dead c = false := by
  intro c hc
  have h2 : c ∈ alive.filter (fun c =>
      !dead c && (match c.parentId with
                  | some p => decide (p ∈ alive.map (fun x => x.id))
                  | none => true)) :=
    pruneComments_subset dead fuel _ c hc
  have h3 := List.of_mem_filter h2
  have h4 : (!dead c) = true := (Bool.and_eq_true _ _).mp h3 |>.1
  simpa using h4

/-- Deleting a Post: the row itself is removed; `Comment.post` and
`Rating.post` are `on_delete=models.CASCADE` (models.py 147–148 and
185–186), so its comments (and transitively their children) and its
ratings are removed; no other table is touched — in particular
`Post.category` is a plain outgoing reference, so the categories are
unchanged. -/
def delete_post (db : Store) (pid : Nat) : Store :=
  { db with
    posts := db.posts.filter (fun p => decide (¬p.id = pid)),
    comments := pruneComments (fun c => decide (c.postId = pid))
      (db.comments.length + 1) db.comments,
    ratings := db.ratings.filter (fun r => decide (¬r.postId = pid)) }

/-- C6: deleting a Post removes every Comment and every Rating referencing
it, and leaves the categories (and users) of the store unchanged. -/
theorem delete_post_cascades (db : Store) (pid : Nat) :
    (delete_post db pid).comments.filter (fun c => decide (c.postId = pid)) = [] ∧
    (delete_post db pid).ratings =
      db.ratings.filter (fun r => decide (¬r.postId = pid)) ∧
    (delete_post db pid).categories = db.categories ∧
    (delete_post db pid).users = db.users := by
  refine ⟨?_, rfl, rfl, rfl⟩
  rw [List.filter_eq_nil_iff]
  intro c hc
  have := pruneComments_not_dead (fun c => decide (c.postId = pid))
    db.comments.length db.comments c hc
  simpa using this

/-- Deleting a User: the user row is removed; `Comment.author` and
`Rating.user` are `on_delete=CASCADE` (models.py 149–151 and 187–188), so
their comments (with the child-comment cascade) and their ratings are
removed; `Post.author` is `on_delete=SET_DEFAULT, default=1`
(models.py 57–58) and `Post.updater` is `on_delete=SET_NULL`
(models.py 59–62), so posts survive with substituted references. -/
def delete_user (db : Store) (uid : Nat) : Store :=
  { db with
    users := db.users.filter (fun u => decide (¬u.id = uid)),
    posts := db.posts.map (fun p =>
      let p1 := if p.authorId = uid then { p with authorId := 1 } else p
      if p1.updaterId = some uid then { p1 with updaterId := none } else p1),
    comments := pruneComments (fun c => decide (c.authorId = uid))
      (db.comments.length + 1) db.comments,
    ratings := db.ratings.filter (fun r => decide (¬r.userId = some uid)) }

/-- C10: deleting a User removes exactly the Ratings whose user field
references that user, so every post's score becomes the sum of its
remaining ratings' values — the aggregate can change although no
vote-retraction operation exists. -/
theorem delete_user_cascades_ratings (db : Store) (uid pid : Nat) :
    (delete_user db uid).ratings =
      db.ratings.filter (fun r => decide (¬r.userId = some uid)) ∧
    score_of (delete_user db uid) pid =
      ((db.ratings.filter
        (fun r => decide (r.postId = pid ∧ ¬r.userId = some uid))).map
        (fun r => r.value)).sum := by
  refine ⟨rfl, ?_⟩
  rw [score_of, get_sum_rating_eq_sum]
  show (((db.ratings.filter (fun r => decide (¬r.userId = some uid))).filter
      (fun r => decide (r.postId = pid))).map (fun r => r.value)).sum = _
  rw [List.filter_filter]
  congr 1
  congr 1
  apply List.filter_congr
  intro r hr
  simp

/-- The demo store for user deletion: user 2 voted on post 1. -/
def demoStoreUserVote : Store :=
  { demoStore with
    users := { id := 2, username := "v", email := "v@x.com",
               first_name := "V", last_name := "W" } :: demoStore.users,
    ratings := [{ postId := 1, userId := some 2, value := 1,
                  time_create := 10, ip_address := "1.2.3.4" }],
    clock := 11 }

/-- Witness for `delete_user_cascades_ratings`: deleting user 2 removes
their vote and post 1's score drops to 0. -/
theorem delete_user_cascades_ratings_witness :
    (delete_user demoStoreUserVote 2).ratings =
      demoStoreUserVote.ratings.filter (fun r => decide (¬r.userId = some 2)) ∧
    score_of (delete_user demoStoreUserVote 2) 1 =
      ((demoStoreUserVote.ratings.filter
        (fun r => decide (r.postId = 1 ∧ ¬r.userId = some 2))).map
        (fun r => r.value)).sum :=
  delete_user_cascades_ratings demoStoreUserVote 2 1

/-- The `Post.Meta.ordering = ['-fixed', '-create']` comparison
(models.py 71): fixed (pinned) posts first, then creation time
descending. -/
def postLe (p q : Post) : Bool :=
  if p.fixed = q.fixed then decide (q.create ≤ p.create) else p.fixed

theorem postLe_total (p q : Post) : (postLe p q || postLe q p) = true := by
  unfold postLe
  rcases Nat.le_total q.create p.create with h | h <;>
    cases hp : p.fixed <;> cases hq : q.fixed <;> simp_all

theorem postLe_trans (a b c : Post) :
    postLe a b = true → postLe b c = true → postLe a c = true := by
  unfold postLe
  cases ha : a.fixed <;> cases hb : b.fixed <;> cases hc : c.fixed <;>
    simp_all <;> omega

/-- `PostManager.get_queryset` (models.py 17–21):
`super().get_queryset().select_related('author', 'category').filter(status='published')`,
with the rows ordered per `Post.Meta.ordering = ['-fixed', '-create']`. -/
def list_published (db : Store) : List Post :=
  (db.posts.filter (fun p => decide (p.status = Status.published))).mergeSort postLe

def findUser (db : Store) (uid : Nat) : Option User :=
  db.users.find? (fun u => decide (u.id = uid))

def findCategory (db : Store) (cid : Nat) : Option Category :=
  db.categories.find? (fun c => decide (c.id = cid))

/-- The rows as fetched by `select_related('author', 'category')`: each
post joined with its author and category. -/
def list_published_joined (db : Store) :
    List (Post × Option User × Option Category) :=
  (list_published db).map
    (fun p => (p, findUser db p.authorId, findCategory db p.categoryId))

/-- C3: `list_published` returns exactly the published posts (drafts are
excluded), sorted by fixed descending then creation time descending; in
particular every pinned post precedes every non-pinned one, and the joined
view carries exactly those posts. -/
theorem list_published_spec (db : Store) (p : Post) :
    (p ∈ list_published db ↔ p ∈ db.posts ∧ p.status = Status.published) ∧
    (list_published db).Pairwise (fun a b => postLe a b = true) ∧
    (list_published db).Pairwise (fun a b => b.fixed = true → a.fixed = true) ∧
    (list_published_joined db).map Prod.fst = list_published db := by
  have hsorted : (list_published db).Pairwise (fun a b => postLe a b = true) :=
    List.sorted_mergeSort postLe_trans postLe_total _
  refine ⟨?_, hsorted, ?_, ?_⟩
  · rw [list_published, List.mem_mergeSort, List.mem_filter]
    simp
  · refine hsorted.imp ?_
    intro a b hab
    intro hbfix
    unfold postLe at hab
    cases ha : a.fixed
    · rw [ha, hbfix] at hab
      simp at hab
    · rfl
  · rw [list_published_joined, List.map_map]
    exact List.map_id _

/-- Uniqueness constraints the model layer declares, read off the field
and Meta declarations: `Rating.Meta.unique_together = ('post', 'ip_address')`
(models.py 196) is declared, while `Post.slug` is
`SlugField(max_length=255, blank=True)` (models.py 33) — its `unique`
option is left at the default `False` (and `Category.slug` likewise,
models.py 102). -/
def post_slug_declared_unique : Bool := false

def rating_post_ip_declared_unique : Bool := true

/-- C2 counterexample: no datastore uniqueness constraint backs
`Post.slug` — the field declaration on models.py line 33 does not set
`unique=True`. -/
theorem post_slug_not_db_unique :
    post_slug_declared_unique = false ∧ rating_post_ip_declared_unique = true :=
  ⟨rfl, rfl⟩

/-- Modelled from the spec: `apps.services.utils.unique_slugify` is not
under src/.  §4.1: normalize the title into a URL-safe token (lowercase,
whitespace to separator); if it collides with an existing record's slug,
append a disambiguating suffix.  The suffix scheme is left open by the
spec (§9); we append a suffix longer than every stored slug, which
disambiguates in one step. -/
def slugify (t : String) : String :=
  String.mk (t.data.map (fun c => if c = ' ' then '-' else c.toLower))

def maxSlugLength (existing : List String) : Nat :=
  existing.foldr (fun s m => max s.length m) 0

def unique_slugify (existing : List String) (title : String) (slug : String) :
    String :=
  let base := if slug = "" then slugify title else slug
  if base ∈ existing then
    base ++ String.mk (List.replicate (maxSlugLength existing + 1) 'x')
  else base

theorem length_le_maxSlugLength (existing : List String) (s : String)
    (hs : s ∈ existing) : s.length ≤ maxSlugLength existing := by
  induction existing with
  | nil => cases hs
  | cons a l ih =>
      rcases List.mem_cons.mp hs with h | h
      · subst h
        exact Nat.le_max_left _ _
      · exact Nat.le_trans (ih h) (Nat.le_max_right _ _)

theorem unique_slugify_not_mem (existing : List String) (title slug : String) :
    ¬unique_slugify existing title slug ∈ existing := by
  unfold unique_slugify
  set base := if slug = "" then slugify title else slug with hbase
  by_cases hmem : base ∈ existing
  · rw [if_pos hmem]
    intro hcontra
    have hlen := length_le_maxSlugLength existing _ hcontra
    rw [String.length_append] at hlen
    have h2 : (String.mk (List.replicate (maxSlugLength existing + 1) 'x')).length
        = maxSlugLength existing + 1 := by
      rw [String.length_mk, List.length_replicate]
    rw [h2] at hlen
    omega
  · rw [if_neg hmem]
    exact hmem

/-- `Post.save` (models.py 85–90): sets
`self.slug = unique_slugify(self, self.title, self.slug)` and then calls
`super().save()`; for a new post this inserts the row. -/
def post_save_new (db : Store) (p : Post) : Store :=
  { db with
    posts := { p with
      slug := unique_slugify (db.posts.map (fun q => q.slug)) p.title p.slug }
      :: db.posts,
    clock := db.clock + 1 }

/-- C2 (amended): saving a new post through `Post.save` preserves pairwise
distinctness of the stored slugs — the Slug Generator returns a slug
distinct from every stored one. -/
theorem post_save_slug_unique (db : Store) (p : Post)
    (h : (db.posts.map (fun q => q.slug)).Nodup) :
    ((post_save_new db p).posts.map (fun q => q.slug)).Nodup := by
  simp only [post_save_new, List.map_cons]
  refine List.nodup_cons.mpr ⟨?_, h⟩
  exact unique_slugify_not_mem (db.posts.map (fun q => q.slug)) p.title p.slug

/-- Witness for `post_save_slug_unique`: saving a second post titled "P"
into `demoStore` keeps the slugs distinct. -/
theorem post_save_slug_unique_witness :
    ((post_save_new demoStore
      { id := 2, title := "P", slug := "", description := "d", categoryId := 1,
        text := "t", status := Status.published, create := 5, authorId := 1,
        updaterId := none, fixed := false }).posts.map (fun q => q.slug)).Nodup :=
  post_save_slug_unique demoStore
    { id := 2, title := "P", slug := "", description := "d", categoryId := 1,
      text := "t", status := Status.published, create := 5, authorId := 1,
      updaterId := none, fixed := false } (by decide)

/-- `UserRegisterForm.clean_email` (forms.py 80–89):
`if email and User.objects.filter(email=email).exists(): raise ValidationError`.
A falsy (empty) email skips the check — the underlying user model allows a
blank email. -/
def register_clean_email (users : List User) (email : String) :
    Except DBError String :=
  if email ≠ "" ∧ users.any (fun u => decide (u.email = email)) then
    Except.error DBError.validationError
  else Except.ok email

/-- Modelled from the spec: the registration view is not under src/; on a
valid form it creates the user.  Email validation is
`UserRegisterForm.clean_email`. -/
def register (db : Store) (username email first last : String) :
    Except DBError Store :=
  match register_clean_email db.users email with
  | Except.error e => Except.error e
  | Except.ok em =>
      Except.ok { db with
        users := { id := db.clock, username := username, email := em,
                   first_name := first, last_name := last } :: db.users,
        clock := db.clock + 1 }

/-- `UserUpdateForm.clean_email` (forms.py 37–44):
`if email and User.objects.filter(email=email).exclude(pk=self.instance.pk).exists()`. -/
def update_clean_email (users : List User) (pk : Nat) (email : String) :
    Except DBError String :=
  if email ≠ "" ∧ users.any (fun u => decide (u.email = email ∧ ¬u.id = pk)) then
    Except.error DBError.validationError
  else Except.ok email

/-- Modelled from the spec: the profile view is not under src/; on a valid
form the account fields of user `pk` are replaced.  Email validation is
`UserUpdateForm.clean_email`. -/
def update_account (db : Store) (pk : Nat) (username email first last : String) :
    Except DBError Store :=
  match update_clean_email db.users pk email with
  | Except.error e => Except.error e
  | Except.ok em =>
      Except.ok { db with
        users := db.users.map (fun u =>
          if u.id = pk then
            { u with username := username, email := em,
                     first_name := first, last_name := last }
          else u) }

/-- A store holding a single user whose email is blank. -/
def blankEmailStore : Store :=
  { users := [{ id := 0, username := "u", email := "",
                first_name := "A", last_name := "B" }],
    categories := [], posts := [], comments := [], ratings := [], clock := 1 }

/-- C8 counterexample: the blank email "" is already used by the stored
user, yet a second registration with the same blank email succeeds — the
`if email and ...` guard exempts falsy emails, so two users end up sharing
the email value. -/
theorem register_blank_email_not_unique :
    (∃ u ∈ blankEmailStore.users, u.email = "") ∧
    register blankEmailStore "v" "" "C" "D" =
      Except.ok { blankEmailStore with
        users := { id := 1, username := "v", email := "",
                   first_name := "C", last_name := "D" }
          :: blankEmailStore.users,
        clock := 2 } := by
  constructor
  · exact ⟨_, List.mem_singleton.mpr rfl, rfl⟩
  · rfl

/-- C8 (amended): for a nonempty email, registration fails with a
ValidationError when the email is used by any existing user (and produces
no store, leaving every user unaffected); an account update fails when the
email is used by a different user; a user may keep their own email. -/
theorem email_uniqueness (db : Store) (pk : Nat) (un em fn ln : String)
    (hem : em ≠ "") :
    ((∃ u ∈ db.users, u.email = em) →
      register db un em fn ln = Except.error DBError.validationError ∧
      ∀ db2 : Store, register db un em fn ln ≠ Except.ok db2) ∧
    ((∃ u ∈ db.users, u.email = em ∧ ¬u.id = pk) →
      update_account db pk un em fn ln = Except.error DBError.validationError) ∧
    ((∀ u ∈ db.users, u.email = em → u.id = pk) →
      ∃ db2 : Store, update_account db pk un em fn ln = Except.ok db2) := by
  refine ⟨?_, ?_, ?_⟩
  · rintro ⟨u, hu, hue⟩
    have hcl : register_clean_email db.users em =
        Except.error DBError.validationError := by
      unfold register_clean_email
      rw [if_pos]
      exact ⟨hem, List.any_eq_true.mpr ⟨u, hu, by simp [hue]⟩⟩
    constructor
    · unfold register
      rw [hcl]
    · intro db2 hcontra
      unfold register at hcontra
      rw [hcl] at hcontra
      exact absurd hcontra (by simp)
  · rintro ⟨u, hu, hue, hupk⟩
    unfold update_account update_clean_email
    rw [if_pos]
    exact ⟨hem, List.any_eq_true.mpr ⟨u, hu, by simp [hue, hupk]⟩⟩
  · intro hown
    have hcl : update_clean_email db.users pk em = Except.ok em := by
      unfold update_clean_email
      rw [if_neg]
      rintro ⟨-, hany⟩
      obtain ⟨u, hu, hcond⟩ := List.any_eq_true.mp hany
      rw [decide_eq_true_iff] at hcond
      exact hcond.2 (hown u hu hcond.1)
    refine ⟨{ db with users := db.users.map (fun u =>
        if u.id = pk then
          { u with username := un, email := em,
                   first_name := fn, last_name := ln }
        else u) }, ?_⟩
    unfold update_account
    rw [hcl]

/-- Witness for `email_uniqueness`: registering a second user with the
taken email "a@x.com" on `demoStore` fails. -/
theorem email_uniqueness_witness :
    register demoStore "v" "a@x.com" "C" "D" =
      Except.error DBError.validationError ∧
    ∀ db2 : Store, register demoStore "v" "a@x.com" "C" "D" ≠ Except.ok db2 :=
  (email_uniqueness demoStore 1 "v" "a@x.com" "C" "D" (by decide)).1
    ⟨{ id := 1, username := "admin", email := "a@x.com",
       first_name := "A", last_name := "B" }, by decide, rfl⟩

/-- Modelled from the spec: the Profile model (`apps/accounts/models.py`)
is not under src/.  §3: a Profile extends a User one-to-one with
birth_date, bio and an avatar image reference; registration creates an
empty Profile, so the avatar may be absent. -/
structure Profile where
  userId : Nat
  birth_date : Option Nat
  bio : String
  avatar : Option String
deriving DecidableEq, Repr

/-- The framework's file-field cleaning for the declared avatar field
(`avatar = forms.ImageField(widget=forms.FileInput(...))`,
forms.py 60–62; `required` is left at its default `True`): an uploaded
file is taken; with no upload, the instance's initial value is returned
when present, and otherwise a required-field ValidationError is raised. -/
def fileFieldClean (required : Bool) (data initial : Option String) :
    Except DBError (Option String) :=
  match data with
  | some d => Except.ok (some d)
  | none =>
      match initial with
      | some i => Except.ok (some i)
      | none => if required then Except.error DBError.validationError
                else Except.ok none

/-- `ProfileUpdateForm` (forms.py 47–66) applied to a profile instance:
birth_date and bio are replaced by the submitted values, the avatar field
is cleaned against the instance's current avatar as initial. -/
def update_profile (p : Profile) (birth : Nat) (bio : String)
    (avatar : Option String) : Except DBError Profile :=
  match fileFieldClean true avatar p.avatar with
  | Except.error e => Except.error e
  | Except.ok av =>
      Except.ok { p with birth_date := some birth, bio := bio, avatar := av }

/-- C9 counterexample: on a profile with no prior avatar, omitting the
avatar makes the update fail with a required-field ValidationError — the
declared avatar field is not optional. -/
theorem update_profile_avatar_required :
    update_profile { userId := 0, birth_date := none, bio := "", avatar := none }
      100 "bio" none = Except.error DBError.validationError := rfl

/-- C9 (amended): when the profile has a prior avatar, the avatar upload
may be omitted: the update succeeds, birth_date and bio are replaced and
the avatar keeps its prior value; only with no prior avatar does the
omission fail (required field). -/
theorem update_profile_avatar_retained (p : Profile) (b : Nat) (bio a : String)
    (h : p.avatar = some a) :
    update_profile p b bio none =
      Except.ok { p with birth_date := some b, bio := bio } := by
  unfold update_profile fileFieldClean
  rw [h]

/-- Witness for `update_profile_avatar_retained` on a concrete profile. -/
theorem update_profile_avatar_retained_witness :
    update_profile { userId := 0, birth_date := some 1, bio := "old",
                     avatar := some "pic.png" } 2 "new" none =
      Except.ok { userId := 0, birth_date := some 2, bio := "new",
                  avatar := some "pic.png" } :=
  update_profile_avatar_retained
    { userId := 0, birth_date := some 1, bio := "old", avatar := some "pic.png" }
    2 "new" "pic.png" rfl

end Blog
